import Mathlib

/-!
# Verification of the meetup-cloudflare Presence Broadcast Coordinator
# and Identity Verification Pipeline

Shallow embedding of the `Broadcaster` Durable Object
(`server/src/durable-object.ts`) and of the identity verification
pipeline, together with theorems settling the specification's claims.

Modelling conventions for the Broadcaster:
* Times are `Nat` milliseconds (the values of `Date.now()`).
* The Durable Object storage holds a single key `meetupStartTime`;
  it is modelled as `Option Nat` (`none` = key absent).
* The single Durable Object alarm slot is modelled as `alarmTime :
  Option Nat`; `storage.setAlarm t` overwrites it (at most one alarm
  is ever outstanding, as in the Cloudflare runtime).
* Externally visible actions (WebSocket sends, close attempts,
  `setAlarm`, `deleteAll`, and the serialization performed at the top
  of `broadcast`) are recorded in an effect trace; a `ws.send` inside
  the source's `try { } catch` is recorded as `sendFail` when the
  handle throws (`WS.sendFails = true`), modelling a stale handle.
* Each Durable Object event handler runs to completion before the
  next (the actor is logically single threaded), so every operation
  is a pure function `State → State × List Effect`, taking the
  current clock reading `now` as an argument.
-/

namespace Meetup

/-- A live WebSocket connection handle held by the Coordinator.
`id` identifies the handle (handles are distinct transports, so ids
are assumed distinct); `sendFails` models a stale handle whose
`send` throws. -/
structure WS where
  id : Nat
  sendFails : Bool
deriving Repr, DecidableEq

/-- Broadcast payload data.  `endedInfo` is the object literal the
source passes for the `meetup-ended` event; `payload` stands for an
opaque application payload (user record, `{did}`, ...). -/
inductive BData where
  | endedInfo (reason : String) (message : String)
  | payload (raw : String)
deriving Repr, DecidableEq

/-- A serialized WebSocket message.  `event ty d` is
`JSON.stringify({type: ty, data: d})` from `broadcast`; `connected`
is the private acknowledgment built in `handleWebSocket`
(`{type: 'connected', timestamp, connectionCount}`, with the
timestamp modelled as the millisecond clock reading). -/
inductive Msg where
  | event (ty : String) (data : BData)
  | connected (timestamp : Nat) (connectionCount : Nat)
deriving Repr, DecidableEq

/-- An externally visible action of the Broadcaster. -/
inductive Effect where
  | send (wsId : Nat) (m : Msg)
  | sendFail (wsId : Nat) (m : Msg)
  | broadcastCall (ty : String) (data : BData)
  | deleteAll
  | setAlarm (t : Nat)
  | close (wsId : Nat) (code : Nat) (reason : String)
deriving Repr, DecidableEq

/-- The in-memory and durable state of the `Broadcaster` Durable
Object: the two instance fields, the single storage key
`meetupStartTime`, the alarm slot, and the hibernation-managed live
connection set (`ctx.getWebSockets()`). -/
structure BroadcasterState where
  lastActivity : Nat
  meetupStartTime : Nat
  storage : Option Nat
  alarmTime : Option Nat
  connections : List WS
deriving Repr, DecidableEq

/-- `scheduleAlarm`: sets the single alarm slot to `Date.now() + 30 *
60 * 1000`, superseding any previously scheduled alarm. -/
def scheduleAlarm (now : Nat) (s : BroadcasterState) :
    BroadcasterState × List Effect :=
  ({ s with alarmTime := some (now + 30 * 60 * 1000) },
   [Effect.setAlarm (now + 30 * 60 * 1000)])

/-- The effect trace of the private `broadcast(event, data)` method:
it serializes `{type: event, data}` once (`broadcastCall`), then for
each live connection attempts `ws.send` inside `try/catch`, so a
throwing handle yields `sendFail` and delivery continues. -/
def broadcastEffects (ty : String) (d : BData) (s : BroadcasterState) :
    List Effect :=
  Effect.broadcastCall ty d ::
    s.connections.map (fun ws =>
      if ws.sendFails then Effect.sendFail ws.id (Msg.event ty d)
      else Effect.send ws.id (Msg.event ty d))

/-- `broadcast` as a Coordinator operation (invoked at instant `now`
by the `/broadcast` endpoint).  The source method reads no clock and
mutates no field: the state is returned unchanged. -/
def broadcastOp (_now : Nat) (ty : String) (d : BData)
    (s : BroadcasterState) : BroadcasterState × List Effect :=
  (s, broadcastEffects ty d s)

/-- `handleWebSocket`: `ctx.acceptWebSocket(ws)` adds the handle to
the live set, `lastActivity` is set to `Date.now()`, the connection
count is read after acceptance, the `connected` acknowledgment is
sent to the new handle only (inside `try/catch`), and
`scheduleAlarm()` runs. -/
def handleWebSocket (now : Nat) (ws : WS) (s : BroadcasterState) :
    BroadcasterState × List Effect :=
  let conns := s.connections ++ [ws]
  let s1 := { s with connections := conns, lastActivity := now }
  let m := Msg.connected now conns.length
  let sendEff :=
    if ws.sendFails then Effect.sendFail ws.id m
    else Effect.send ws.id m
  let (s2, alarmEffs) := scheduleAlarm now s1
  (s2, sendEff :: alarmEffs)

/-- `webSocketClose`: by the time the handler runs the runtime has
removed the closed handle from `ctx.getWebSockets()` (modelled by
filtering out its id).  `lastActivity` is set to `Date.now()`, and
`scheduleAlarm()` runs only when the remaining count is zero. -/
def webSocketClose (now : Nat) (ws : WS) (s : BroadcasterState) :
    BroadcasterState × List Effect :=
  let conns := s.connections.filter (fun w => w.id != ws.id)
  let s1 := { s with connections := conns, lastActivity := now }
  if conns.length = 0 then scheduleAlarm now s1 else (s1, [])

/-- `webSocketMessage`: sets `lastActivity` to `Date.now()` and does
nothing else. -/
def webSocketMessage (now : Nat) (s : BroadcasterState) :
    BroadcasterState × List Effect :=
  ({ s with lastActivity := now }, [])

/-- The `alarm()` handler.  The firing alarm is consumed (the slot is
empty unless the handler reschedules).  If the live set is empty and
`now - lastActivity` exceeds two hours, it broadcasts `meetup-ended`
(reason `idle`), runs `storage.deleteAll()` and returns without
rescheduling; otherwise it only runs `scheduleAlarm()`. -/
def alarmOp (now : Nat) (s : BroadcasterState) :
    BroadcasterState × List Effect :=
  let s0 := { s with alarmTime := none }
  if s0.connections.length = 0 ∧
      now - s0.lastActivity > 2 * 60 * 60 * 1000 then
    ({ s0 with storage := none },
     broadcastEffects "meetup-ended"
       (BData.endedInfo "idle" "Meetup ended due to inactivity") s0
       ++ [Effect.deleteAll])
  else
    scheduleAlarm now s0

/-- `closeAllConnections`: attempts `ws.close(1000, 'Meetup ended')`
on every live connection (each attempt inside `try/catch`).  This
method is defined in the source but is not invoked by any other
operation of the class. -/
def closeAllConnections (s : BroadcasterState) : List Effect :=
  s.connections.map (fun ws => Effect.close ws.id 1000 "Meetup ended")

/-- The constructor body (including the `blockConcurrencyWhile`
block): both instance fields start at `Date.now()`; then the stored
`meetupStartTime` is read, and — per JavaScript truthiness of
`if (stored)` — a present nonzero value is adopted without writing,
while an absent (or zero) value causes the current time to be
persisted.  Durable state (`storage`, `alarmTime`) and the
hibernation-preserved connection set carry over from before the
restart; the returned `Bool` records whether `storage.put` ran. -/
def initBroadcaster (now : Nat) (s : BroadcasterState) :
    BroadcasterState × Bool :=
  let s1 := { s with lastActivity := now, meetupStartTime := now }
  match s.storage with
  | some v =>
    if v ≠ 0 then ({ s1 with meetupStartTime := v }, false)
    else ({ s1 with storage := some now }, true)
  | none => ({ s1 with storage := some now }, true)

/-- A sequence of Durable Object restarts at the given clock
readings, starting from state `s`; returns the final state and the
number of `storage.put('meetupStartTime', _)` writes performed. -/
def runRestarts : List Nat → BroadcasterState → BroadcasterState × Nat
  | [], s => (s, 0)
  | t :: ts, s =>
    let r := initBroadcaster t s
    let r2 := runRestarts ts r.1
    (r2.1, (if r.2 then 1 else 0) + r2.2)

/-- Recognizes successful send effects. -/
def isSendEffect : Effect → Bool
  | Effect.send _ _ => true
  | _ => false

/-- Recognizes close attempts. -/
def isCloseEffect : Effect → Bool
  | Effect.close _ _ _ => true
  | _ => false

end Meetup

namespace Meetup

/-! ## Helper lemmas -/

/-- Successful sends among the per-connection delivery attempts are
exactly the non-failing connections. -/
theorem filter_send_map_length (ty : String) (d : BData) (l : List WS) :
    ((l.map (fun ws =>
      if ws.sendFails then Effect.sendFail ws.id (Msg.event ty d)
      else Effect.send ws.id (Msg.event ty d))).filter isSendEffect).length
      = (l.filter (fun w => !w.sendFails)).length := by
  induction l with
  | nil => rfl
  | cons a l ih =>
    cases h : a.sendFails <;>
      simp [List.filter_cons, h, isSendEffect, ih]

/-! ## Claims -/

/-- C1: When the alarm fires, if the live connection count is 0 and
the idle time (now minus lastActivity) exceeds 2 hours, the
Coordinator broadcasts `meetup-ended` with reason `idle`, clears all
durable storage, and does not reschedule the alarm; in every other
case it reschedules the alarm for 30 minutes and performs no other
action. -/
theorem alarm_fire_dichotomy (now : Nat) (s : BroadcasterState) :
    (s.connections.length = 0 ∧
        now - s.lastActivity > 2 * 60 * 60 * 1000 →
      alarmOp now s =
        ({ s with alarmTime := none, storage := none },
         [Effect.broadcastCall "meetup-ended"
            (BData.endedInfo "idle" "Meetup ended due to inactivity"),
          Effect.deleteAll])) ∧
    (¬ (s.connections.length = 0 ∧
        now - s.lastActivity > 2 * 60 * 60 * 1000) →
      alarmOp now s =
        ({ s with alarmTime := some (now + 30 * 60 * 1000) },
         [Effect.setAlarm (now + 30 * 60 * 1000)])) := by
  constructor
  · intro h
    have hconn : s.connections = [] := List.length_eq_zero.mp h.1
    simp [alarmOp, broadcastEffects, hconn, h.2]
  · intro h
    simp only [alarmOp]
    rw [if_neg (by simpa using h)]
    rfl

/-- C1 witness: a concrete idle firing (no connections, idle for
2 hours and 1 ms) ends the session. -/
theorem alarm_fire_dichotomy_witness :
    alarmOp 7200001 ⟨0, 0, some 5, none, []⟩ =
      ({ lastActivity := 0, meetupStartTime := 0, storage := none,
         alarmTime := none, connections := [] },
       [Effect.broadcastCall "meetup-ended"
          (BData.endedInfo "idle" "Meetup ended due to inactivity"),
        Effect.deleteAll]) :=
  (alarm_fire_dichotomy 7200001 ⟨0, 0, some 5, none, []⟩).1 (by decide)

/-- C2: `broadcast` serializes `{type: eventName, data: payload}` and
attempts delivery to every handle in the live set; a throwing handle
is caught (`sendFail`) and does not prevent delivery to the others,
so the successful sends are exactly the non-failing handles; in
particular with exactly one failing handle out of N, the other N − 1
still receive the message. -/
theorem broadcast_partial_failure (now : Nat) (ty : String) (d : BData)
    (s : BroadcasterState) :
    Effect.broadcastCall ty d ∈ (broadcastOp now ty d s).2 ∧
    (∀ ws ∈ s.connections, ws.sendFails = false →
        Effect.send ws.id (Msg.event ty d) ∈ (broadcastOp now ty d s).2) ∧
    (∀ ws ∈ s.connections, ws.sendFails = true →
        Effect.sendFail ws.id (Msg.event ty d) ∈ (broadcastOp now ty d s).2) ∧
    (((broadcastOp now ty d s).2.filter isSendEffect).length
        = (s.connections.filter (fun w => !w.sendFails)).length) ∧
    ((s.connections.filter (fun w => w.sendFails)).length = 1 →
        ((broadcastOp now ty d s).2.filter isSendEffect).length
          = s.connections.length - 1) := by
  have hcount : ((broadcastOp now ty d s).2.filter isSendEffect).length
      = (s.connections.filter (fun w => !w.sendFails)).length := by
    simp only [broadcastOp, broadcastEffects, List.filter_cons]
    simpa [isSendEffect] using filter_send_map_length ty d s.connections
  refine ⟨List.mem_cons_self _ _, ?_, ?_, hcount, ?_⟩
  · intro ws hmem hfail
    simp only [broadcastOp, broadcastEffects]
    exact List.mem_cons_of_mem _ (by
      refine List.mem_map.mpr ⟨ws, hmem, ?_⟩
      simp [hfail])
  · intro ws hmem hfail
    simp only [broadcastOp, broadcastEffects]
    exact List.mem_cons_of_mem _ (by
      refine List.mem_map.mpr ⟨ws, hmem, ?_⟩
      simp [hfail])
  · intro hone
    have := List.length_eq_length_filter_add (l := s.connections)
      (fun w => w.sendFails)
    rw [hcount]
    omega

/-- C2 witness: three connections, the second broken — the other two
still receive the broadcast. -/
theorem broadcast_partial_failure_witness :
    ((broadcastOp 0 "user-joined" (BData.payload "u")
        ⟨0, 0, none, none, [⟨1, false⟩, ⟨2, true⟩, ⟨3, false⟩]⟩).2.filter
          isSendEffect).length = 3 - 1 :=
  (broadcast_partial_failure 0 "user-joined" (BData.payload "u")
      ⟨0, 0, none, none, [⟨1, false⟩, ⟨2, true⟩, ⟨3, false⟩]⟩).2.2.2.2
    (by decide)

/-- C3 counterexample: `broadcast` does not update `lastActivity`.
Invoked at time 100 on a state whose `lastActivity` is 5, the state
after the operation still has `lastActivity = 5`, not the current
time. -/
theorem broadcast_activity_cex :
    (broadcastOp 100 "user-joined" (BData.payload "u")
        ⟨5, 0, none, none, []⟩).1.lastActivity = 5 ∧ (5 : Nat) ≠ 100 := by
  decide

/-- C3 (amended): a new connection, a disconnect, and an incoming
WebSocket message each set `lastActivity` to the current time, but
`broadcast` leaves the state — in particular `lastActivity` —
entirely unchanged. -/
theorem activity_updates (now : Nat) (ws : WS) (ty : String) (d : BData)
    (s : BroadcasterState) :
    (handleWebSocket now ws s).1.lastActivity = now ∧
    (webSocketClose now ws s).1.lastActivity = now ∧
    (webSocketMessage now s).1.lastActivity = now ∧
    (broadcastOp now ty d s).1 = s := by
  refine ⟨rfl, ?_, rfl, rfl⟩
  simp only [webSocketClose]
  split <;> rfl

end Meetup

namespace Meetup

/-- C4 counterexample: a disconnect that leaves one live connection
schedules nothing — no `setAlarm` effect is emitted and no alarm 30
minutes in the future is outstanding afterwards. -/
theorem disconnect_schedule_cex :
    (webSocketClose 100 ⟨2, false⟩
        ⟨0, 0, none, none, [⟨1, false⟩, ⟨2, false⟩]⟩).2 = [] ∧
    (webSocketClose 100 ⟨2, false⟩
        ⟨0, 0, none, none, [⟨1, false⟩, ⟨2, false⟩]⟩).1.alarmTime ≠
      some (100 + 30 * 60 * 1000) := by
  decide

/-- C4 (amended): every connect schedules the 30-minute alarm; a
disconnect schedules it only when the live set becomes empty
(otherwise it emits no effect and leaves the alarm slot unchanged);
every alarm firing that does not terminate the session reschedules
it; and scheduling writes the single alarm slot, superseding
whatever was there. -/
theorem timer_scheduling (now : Nat) (ws : WS) (s : BroadcasterState) :
    ((handleWebSocket now ws s).1.alarmTime = some (now + 30 * 60 * 1000) ∧
      Effect.setAlarm (now + 30 * 60 * 1000) ∈ (handleWebSocket now ws s).2) ∧
    ((s.connections.filter (fun w => w.id != ws.id)).length = 0 →
      (webSocketClose now ws s).1.alarmTime = some (now + 30 * 60 * 1000) ∧
      (webSocketClose now ws s).2 = [Effect.setAlarm (now + 30 * 60 * 1000)]) ∧
    ((s.connections.filter (fun w => w.id != ws.id)).length ≠ 0 →
      (webSocketClose now ws s).2 = [] ∧
      (webSocketClose now ws s).1.alarmTime = s.alarmTime) ∧
    (¬ (s.connections.length = 0 ∧
        now - s.lastActivity > 2 * 60 * 60 * 1000) →
      (alarmOp now s).1.alarmTime = some (now + 30 * 60 * 1000) ∧
      Effect.setAlarm (now + 30 * 60 * 1000) ∈ (alarmOp now s).2) ∧
    ((scheduleAlarm now s).1.alarmTime = some (now + 30 * 60 * 1000)) := by
  refine ⟨⟨rfl, ?_⟩, ?_, ?_, ?_, rfl⟩
  · simp [handleWebSocket, scheduleAlarm]
  · intro h
    simp only [webSocketClose]
    rw [if_pos h]
    exact ⟨rfl, rfl⟩
  · intro h
    simp only [webSocketClose]
    rw [if_neg h]
    exact ⟨rfl, rfl⟩
  · intro h
    simp only [alarmOp]
    rw [if_neg (by simpa using h)]
    exact ⟨rfl, by simp [scheduleAlarm]⟩

/-- C4 witness: a disconnect that empties the live set schedules the
30-minute alarm. -/
theorem timer_scheduling_witness :
    (webSocketClose 100 ⟨1, false⟩
        ⟨0, 0, none, none, [⟨1, false⟩]⟩).1.alarmTime =
      some (100 + 30 * 60 * 1000) :=
  ((timer_scheduling 100 ⟨1, false⟩
      ⟨0, 0, none, none, [⟨1, false⟩]⟩).2.1 (by decide)).1

/-- C5 counterexample: a disconnect at time 0 that leaves the live
set empty schedules the alarm for 30 * 60 * 1000 — a delay of one
full 30-minute timer period, not sooner than the standing periodic
timer. -/
theorem near_term_check_cex :
    (webSocketClose 0 ⟨1, false⟩
        ⟨0, 0, none, none, [⟨1, false⟩]⟩).1.alarmTime =
      some (30 * 60 * 1000) ∧
    ¬ ((30 * 60 * 1000 : Nat) - 0 < 30 * 60 * 1000) := by
  decide

/-- C5 (amended): when a disconnect leaves the live set empty the
Coordinator does explicitly (re)schedule a timer check, but for the
standard 30 minutes from now — the same delay as the standing
periodic timer, not a near-term one; the only promptness gained is
that the timer is reset to a full period from the disconnect. -/
theorem empty_disconnect_reschedules (now : Nat) (ws : WS)
    (s : BroadcasterState)
    (h : (s.connections.filter (fun w => w.id != ws.id)).length = 0) :
    (webSocketClose now ws s).1.alarmTime = some (now + 30 * 60 * 1000) ∧
    (webSocketClose now ws s).2 = [Effect.setAlarm (now + 30 * 60 * 1000)] := by
  simp only [webSocketClose]
  rw [if_pos h]
  exact ⟨rfl, rfl⟩

/-- C5 witness: concrete empty-leaving disconnect at time 7. -/
theorem empty_disconnect_reschedules_witness :
    (webSocketClose 7 ⟨4, true⟩
        ⟨0, 0, none, none, [⟨4, true⟩]⟩).1.alarmTime =
      some (7 + 30 * 60 * 1000) :=
  (empty_disconnect_reschedules 7 ⟨4, true⟩
      ⟨0, 0, none, none, [⟨4, true⟩]⟩ (by decide)).1

end Meetup

namespace Meetup

/-- C6 helper: once the stored start time is a nonzero value, any
further sequence of restarts performs no write and preserves it. -/
theorem runRestarts_stable (ts : List Nat) :
    ∀ (s : BroadcasterState) (v : Nat), s.storage = some v → v ≠ 0 →
      (runRestarts ts s).1.storage = some v ∧ (runRestarts ts s).2 = 0 := by
  induction ts with
  | nil => intro s v h _; exact ⟨h, rfl⟩
  | cons t ts ih =>
    intro s v h hv
    have hinit : initBroadcaster t s =
        ({ s with lastActivity := t, meetupStartTime := v }, false) := by
      simp [initBroadcaster, h, hv]
    have := ih { s with lastActivity := t, meetupStartTime := v } v
      (by simpa using h) hv
    simp only [runRestarts, hinit]
    simpa using this

/-- C6: initialization is idempotent for the start time.  When the
key holds a (nonzero, i.e. real clock) value, initialization adopts
it, performs no write, and never resets it; starting from an absent
key, any sequence of restarts writes the key exactly once — at the
first restart — and the stored start time stays that first clock
reading forever. -/
theorem session_start_written_once (t u v : Nat) (ts : List Nat)
    (s s2 : BroadcasterState)
    (h0 : s.storage = none) (ht : 0 < t)
    (h2 : s2.storage = some v) (hv : 0 < v) :
    ((initBroadcaster u s2).2 = false ∧
     (initBroadcaster u s2).1.storage = some v ∧
     (initBroadcaster u s2).1.meetupStartTime = v) ∧
    ((runRestarts (t :: ts) s).1.storage = some t ∧
     (runRestarts (t :: ts) s).2 = 1) := by
  have hv' : v ≠ 0 := Nat.pos_iff_ne_zero.mp hv
  constructor
  · refine ⟨?_, ?_, ?_⟩ <;> simp [initBroadcaster, h2, hv']
  · have hinit : initBroadcaster t s =
        ({ s with lastActivity := t, meetupStartTime := t, storage := some t }, true) := by
      simp [initBroadcaster, h0]
    have hrest := runRestarts_stable ts
      { s with lastActivity := t, meetupStartTime := t, storage := some t }
      t rfl (Nat.pos_iff_ne_zero.mp ht)
    simp only [runRestarts, hinit]
    simpa using hrest

/-- C6 witness: three restarts at times 5, 9, 13 from an absent key
write once and leave the key at 5. -/
theorem session_start_written_once_witness :
    (runRestarts [5, 9, 13] ⟨0, 0, none, none, []⟩).1.storage = some 5 ∧
    (runRestarts [5, 9, 13] ⟨0, 0, none, none, []⟩).2 = 1 :=
  (session_start_written_once 5 11 3 [9, 13] ⟨0, 0, none, none, []⟩
      ⟨0, 0, some 3, none, []⟩ rfl (by decide) rfl (by decide)).2

/-- C7: an alarm firing with zero connections before 2 hours of idle
time leaves the session intact: the durable start-time key is
unchanged, no `meetup-ended` broadcast occurs, and the only effect
is rescheduling the 30-minute alarm. -/
theorem alarm_before_threshold_frame (now : Nat) (s : BroadcasterState)
    (h1 : s.connections = [])
    (h2 : now - s.lastActivity < 2 * 60 * 60 * 1000) :
    (alarmOp now s).1.storage = s.storage ∧
    (∀ d, Effect.broadcastCall "meetup-ended" d ∉ (alarmOp now s).2) ∧
    alarmOp now s = ({ s with alarmTime := some (now + 30 * 60 * 1000) },
                     [Effect.setAlarm (now + 30 * 60 * 1000)]) := by
  have hg : ¬ (s.connections.length = 0 ∧
      now - s.lastActivity > 2 * 60 * 60 * 1000) := by
    rintro ⟨_, hgt⟩; omega
  have he : alarmOp now s =
      ({ s with alarmTime := some (now + 30 * 60 * 1000) },
       [Effect.setAlarm (now + 30 * 60 * 1000)]) := by
    simp only [alarmOp]
    rw [if_neg (by simpa using hg)]
    rfl
  refine ⟨by rw [he], ?_, he⟩
  intro d hd
  rw [he] at hd
  simp at hd

/-- C7 witness: firing at time 100 (idle 100 ms) with the start-time
key at 7 keeps the key and only reschedules. -/
theorem alarm_before_threshold_frame_witness :
    (alarmOp 100 ⟨0, 0, some 7, none, []⟩).1.storage = some 7 :=
  (alarm_before_threshold_frame 100 ⟨0, 0, some 7, none, []⟩ rfl
    (by decide)).1

/-- C8: on accepting a new connection the Coordinator sends a
`connected` message carrying the server timestamp and the
post-acceptance connection count to the new connection only: every
send (and every caught failed send) in the operation's trace targets
the new handle, so no other observer receives it. -/
theorem connected_ack_private (now : Nat) (ws : WS) (s : BroadcasterState) :
    (ws.sendFails = false →
      Effect.send ws.id (Msg.connected now (s.connections.length + 1)) ∈
        (handleWebSocket now ws s).2) ∧
    (∀ i m, Effect.send i m ∈ (handleWebSocket now ws s).2 →
        i = ws.id ∧ m = Msg.connected now (s.connections.length + 1)) ∧
    (∀ i m, Effect.sendFail i m ∈ (handleWebSocket now ws s).2 →
        i = ws.id) := by
  refine ⟨?_, ?_, ?_⟩
  · intro h
    simp [handleWebSocket, scheduleAlarm, h]
  · intro i m hm
    cases hsf : ws.sendFails <;>
      simp [handleWebSocket, scheduleAlarm, hsf] at hm <;>
      simp [hm]
  · intro i m hm
    cases hsf : ws.sendFails <;>
      simp [handleWebSocket, scheduleAlarm, hsf] at hm <;>
      simp [hm]

/-- C8 witness: the new handle 7, joining one existing connection at
time 42, receives `connected` with count 2. -/
theorem connected_ack_private_witness :
    Effect.send 7 (Msg.connected 42 2) ∈
      (handleWebSocket 42 ⟨7, false⟩ ⟨0, 0, none, none, [⟨1, false⟩]⟩).2 :=
  (connected_ack_private 42 ⟨7, false⟩ ⟨0, 0, none, none, [⟨1, false⟩]⟩).1
    rfl

/-- C9 counterexample: a concrete firing that takes the idle-timeout
path (the start-time key is cleared, witnessing termination) emits
no close attempt at all — the Coordinator does not actively
close/terminate connections on this path. -/
theorem idle_path_close_cex :
    (alarmOp 7200001 ⟨0, 0, some 5, some 7200001, []⟩).1.storage = none ∧
    (alarmOp 7200001 ⟨0, 0, some 5, some 7200001, []⟩).2.all
      (fun e => !isCloseEffect e) = true := by
  decide

/-- C9 helper: a broadcast trace contains no close attempt. -/
theorem broadcastEffects_no_close (ty : String) (d : BData)
    (s : BroadcasterState) :
    (broadcastEffects ty d s).filter isCloseEffect = [] := by
  rw [List.filter_eq_nil_iff]
  intro a ha
  rcases List.mem_cons.mp ha with h | h
  · subst h; simp [isCloseEffect]
  · rcases List.mem_map.mp h with ⟨w, _, rfl⟩
    cases hw : w.sendFails <;> simp [hw, isCloseEffect]

/-- C9 (amended): no Coordinator operation ever actively closes a
connection — in particular the idle-timeout path (which can only
fire with zero live connections) emits no close attempt; the
`closeAllConnections` helper, whose trace would consist of close
attempts, is defined in the source but never invoked. -/
theorem no_operation_closes (now : Nat) (ws : WS) (ty : String)
    (d : BData) (s : BroadcasterState) :
    (alarmOp now s).2.filter isCloseEffect = [] ∧
    (handleWebSocket now ws s).2.filter isCloseEffect = [] ∧
    (webSocketClose now ws s).2.filter isCloseEffect = [] ∧
    (webSocketMessage now s).2.filter isCloseEffect = [] ∧
    (broadcastOp now ty d s).2.filter isCloseEffect = [] ∧
    (closeAllConnections s).all isCloseEffect = true := by
  refine ⟨?_, ?_, ?_, ?_, ?_, ?_⟩
  · simp only [alarmOp]
    split
    · rw [List.filter_append, broadcastEffects_no_close]
      rfl
    · rfl
  · cases hsf : ws.sendFails <;>
      simp [handleWebSocket, scheduleAlarm, hsf, isCloseEffect]
  · simp only [webSocketClose]
    split <;> rfl
  · rfl
  · exact broadcastEffects_no_close ty d s
  · simp only [closeAllConnections, List.all_eq_true]
    intro e he
    rcases List.mem_map.mp he with ⟨w, _, rfl⟩
    rfl

end Meetup

namespace Meetup

/-!
## Identity Verification Pipeline

The verification code itself (`decodeAndVerifyJWT` in the
`@meetup/shared` package) is not part of the repository sources
here — only its callers are — so the pipeline below is modelled from
the specification's §4.1, step by step.
-/

/-- Modelled from the spec: the error taxonomy of the identity
verification pipeline (the shared package implementing it is missing
from the sources). -/
inductive VerificationError where
  | MalformedToken
  | Expired
  | AudienceMismatch
  | InvalidIdentifier
  | InvalidSignature
deriving Repr, DecidableEq

/-- Modelled from the spec: the decoded claims of an assertion —
`issuer` (`iss`, a DID string), optional `expiresAt` (`exp`, epoch
seconds), optional `audience` (`aud`).  The open application data
map plays no role in the verification steps and is omitted. -/
structure AssertionPayload where
  issuer : String
  expiresAt : Option Int
  audience : Option String
deriving Repr, DecidableEq

/-- Modelled from the spec: the verification policy — whether the
audience check is enabled, and the expected audience. -/
structure VerificationPolicy where
  requireAudience : Bool
  expectedAudience : String
deriving Repr, DecidableEq

/-- Splits a character list on `.` (every dot is a separator, empty
segments preserved). -/
def splitDots : List Char → List (List Char)
  | [] => [[]]
  | c :: cs =>
    let r := splitDots cs
    if c = '.' then [] :: r
    else
      match r with
      | [] => [[c]]
      | x :: xs => (c :: x) :: xs

/-- Splits a token string on `.`. -/
def dotSplit (s : String) : List String :=
  (splitDots s.toList).map (fun cs => String.mk cs)

/-- A base64url alphabet character. -/
def isBase64UrlChar (c : Char) : Bool :=
  c.isAlphanum || c = '-' || c = '_'

/-- Modelled from the spec: a nonempty string over the base64url
alphabet is a valid (unpadded) base64url segment. -/
def isBase64Url (s : String) : Bool :=
  !s.toList.isEmpty && s.toList.all isBase64UrlChar

/-- The base58 (Bitcoin) alphabet. -/
def base58Chars : List Char :=
  "123456789ABCDEFGHJKLMNPQRSTUVWXYZabcdefghijkmnopqrstuvwxyz".toList

/-- Value of one base58 digit. -/
def base58DigitVal (c : Char) : Option Nat :=
  base58Chars.findIdx? (· == c)

/-- Folds base58 digits into a natural number; `none` on any
character outside the alphabet. -/
def base58ToNat (cs : List Char) : Option Nat :=
  cs.foldl (fun acc c =>
    match acc, base58DigitVal c with
    | some a, some d => some (a * 58 + d)
    | _, _ => none) (some 0)

/-- Big-endian base-256 digits of `n`, with explicit fuel (the
number of digits of `n` never exceeds `n`, so `fuel = n` is always
enough). -/
def natToBytesBEAux : Nat → Nat → List Nat
  | 0, _ => []
  | _ + 1, 0 => []
  | fuel + 1, n + 1 => natToBytesBEAux fuel ((n + 1) / 256) ++ [(n + 1) % 256]

/-- Big-endian base-256 digits of `n`. -/
def natToBytesBE (n : Nat) : List Nat :=
  natToBytesBEAux n n

/-- Standard base58 decoding: leading `1` characters become leading
zero bytes, the remaining value is written big-endian. -/
def base58Decode (s : String) : Option (List Nat) :=
  let cs := s.toList
  match base58ToNat cs with
  | none => none
  | some n =>
    some (List.replicate ((cs.takeWhile (· == '1')).length) 0
      ++ natToBytesBE n)

/-- Modelled from the spec: resolving a raw Ed25519 public key from
a `did:key` identifier — require the `did:key:z` lead, base58-decode
the remainder, require the 2-byte Ed25519 multicodec tag
(`0xed 0x01`), and require exactly 32 key bytes. -/
def resolveDidKey (iss : String) : Option (List Nat) :=
  let cs := iss.toList
  if cs.take 9 = String.toList "did:key:z" then
    match base58Decode (String.mk (cs.drop 9)) with
    | some (b0 :: b1 :: key) =>
      if b0 = 0xed ∧ b1 = 0x01 ∧ key.length = 32 then some key else none
    | _ => none
  else none

/-- Modelled from the spec: verification steps 4–6, reached only
after the expiry gate — audience policy check, DID resolution, and
Ed25519 signature verification over the original
`header.payload` substring.  The Ed25519 primitive and the payload
JSON decoder are external to the missing package's own code and are
passed in as pure functions. -/
def verifyPostExpiry (verifySig : List Nat → String → String → Bool)
    (policy : VerificationPolicy) (signingInput sigSeg : String)
    (payload : AssertionPayload) :
    Except VerificationError AssertionPayload :=
  if policy.requireAudience &&
      payload.audience != some policy.expectedAudience then
    Except.error VerificationError.AudienceMismatch
  else
    match resolveDidKey payload.issuer with
    | none => Except.error VerificationError.InvalidIdentifier
    | some key =>
      if verifySig key signingInput sigSeg then Except.ok payload
      else Except.error VerificationError.InvalidSignature

/-- Modelled from the spec: the full `verify(token, policy)`
pipeline of §4.1, each step a hard gate in order — split on `.` into
exactly three base64url segments (else `MalformedToken`), decode the
payload (else `MalformedToken`), fail `Expired` when `exp` is at or
before now, then audience, DID resolution, and signature. -/
def verify (decodePayload : String → Option AssertionPayload)
    (verifySig : List Nat → String → String → Bool)
    (now : Int) (policy : VerificationPolicy) (token : String) :
    Except VerificationError AssertionPayload :=
  match dotSplit token with
  | [hSeg, pSeg, sSeg] =>
    if isBase64Url hSeg && isBase64Url pSeg && isBase64Url sSeg then
      match decodePayload pSeg with
      | none => Except.error VerificationError.MalformedToken
      | some payload =>
        match payload.expiresAt with
        | some e =>
          if e ≤ now then Except.error VerificationError.Expired
          else verifyPostExpiry verifySig policy (hSeg ++ "." ++ pSeg)
            sSeg payload
        | none => verifyPostExpiry verifySig policy (hSeg ++ "." ++ pSeg)
            sSeg payload
    else Except.error VerificationError.MalformedToken
  | _ => Except.error VerificationError.MalformedToken

/-- C10: for every well-formed assertion whose payload carries an
`expiresAt` at or before the current time, `verify` fails with
`Expired` — the boundary is inclusive on the expiry side (`e = now`
is rejected), regardless of audience, identifier, or signature. -/
theorem verify_expired (decodePayload : String → Option AssertionPayload)
    (verifySig : List Nat → String → String → Bool)
    (now e : Int) (policy : VerificationPolicy)
    (token hSeg pSeg sSeg : String) (payload : AssertionPayload)
    (hsplit : dotSplit token = [hSeg, pSeg, sSeg])
    (hb : (isBase64Url hSeg && isBase64Url pSeg && isBase64Url sSeg) = true)
    (hd : decodePayload pSeg = some payload)
    (he : payload.expiresAt = some e)
    (hle : e ≤ now) :
    verify decodePayload verifySig now policy token =
      Except.error VerificationError.Expired := by
  simp only [verify, hsplit, hb, hd, he, if_true]
  rw [if_pos hle]

/-- C10 witness: a three-segment token whose payload expires exactly
at the current time (`exp = now = 0`) is rejected as `Expired`, even
with a signature check that accepts everything. -/
theorem verify_expired_witness :
    verify (fun _ => some ⟨"did:key:z6Mk", some 0, none⟩)
      (fun _ _ _ => true) 0 ⟨false, ""⟩ "a.b.c" =
      Except.error VerificationError.Expired :=
  verify_expired (fun _ => some ⟨"did:key:z6Mk", some 0, none⟩)
    (fun _ _ _ => true) 0 0 ⟨false, ""⟩ "a.b.c" "a" "b" "c"
    ⟨"did:key:z6Mk", some 0, none⟩ (by decide) (by decide) rfl rfl
    (by decide)

end Meetup
